import Mathlib

/-!
Shallow embedding of the two Inkscape "sweat drop" extensions
(`sweat_drop.py` and `sweatdrop_teardrop.py`).

Modelling conventions:
* Python floats are modelled as real numbers (`ℝ`); `str`-rendered numeric
  style values are kept as reals in the model.
* `random.uniform a b` is `a + (b - a) * u` where `u` is the underlying
  `random()` draw in `[0, 1)` (this is exactly CPython's implementation);
  the draws are supplied as an explicit stream `fs : ℕ → ℝ`.
  `random.randint 1000 9999` is modelled as `1000 + v % 9000` over a
  separate stream of integer draws `ivs : ℕ → ℕ`, which keeps the
  documented range of the result intrinsic to the model.
* Each drop of the ellipse variant consumes three float draws
  (size jitter, x, y) and two integer draws (the two gradient-id
  suffixes); the teardrop variant additionally consumes a rotation draw.
* The host document tree is out of scope: a generation run is modelled by
  the ordered list of drop groups it creates together with the ordered
  list of gradient definitions it appends to the document `defs`.
* The whole `effect` body is wrapped in `try ... except Exception: pass`
  in both source files; since every operation of the body is total on
  floats, the run is modelled as an `Except` value that is always `ok`.
-/

noncomputable section

/-- CPython `random.uniform a b`: `a + (b - a) * random()` with the
`random()` draw `u` passed explicitly. -/
def uniformVal (a b u : ℝ) : ℝ := a + (b - a) * u

/-- CPython `random.randint lo hi`: a uniform integer in `[lo, hi]`,
modelled by modular reduction of an abstract integer draw. -/
def randintVal (lo hi v : ℕ) : ℕ := lo + v % (hi - lo + 1)

/-- `math.radians`: degrees to radians. -/
def radians (deg : ℝ) : ℝ := deg * Real.pi / 180

/-- One SVG gradient stop: `offset`, `stop-color`, `stop-opacity`. -/
structure GradientStop where
  offset : String
  color : String
  opacity : ℝ

/-- Kind of an SVG gradient: `inkex.LinearGradient`, or
`inkex.RadialGradient` with its `cx`, `cy`, `r` attributes. -/
inductive GradientKind where
  | linear : GradientKind
  | radial (cx cy r : ℝ) : GradientKind

/-- An SVG gradient definition as appended to the document defs. -/
structure Gradient where
  id : String
  kind : GradientKind
  stops : List GradientStop

/-- One command of an SVG path `d` attribute, as emitted by
`create_teardrop_path`: `M`, `C` (two control points and an endpoint),
or `Z`. -/
inductive PathCmd where
  | moveTo (p : ℝ × ℝ) : PathCmd
  | curveTo (c1 c2 p : ℝ × ℝ) : PathCmd
  | closePath : PathCmd

/-- All coordinate pairs of a path, in the order they are written into
the `d` attribute (`Z` emits none). -/
def emittedPoints : List PathCmd → List (ℝ × ℝ)
  | [] => []
  | PathCmd.moveTo p :: rest => p :: emittedPoints rest
  | PathCmd.curveTo c1 c2 p :: rest => c1 :: c2 :: p :: emittedPoints rest
  | PathCmd.closePath :: rest => emittedPoints rest

/-- Number of cubic Bezier (`C`) segments of a path. -/
def cubicSegmentCount (l : List PathCmd) : ℕ :=
  (l.filter fun c => match c with
    | PathCmd.curveTo _ _ _ => true
    | _ => false).length

namespace SweatDrop

/-- The parameters of `SweatDropsExtension.add_arguments`
(`sweat_drop.py`). -/
structure Options where
  drop_count : ℤ
  drop_size : ℝ
  size_variation : ℝ
  shadow_angle : ℝ
  shadow_distance : ℝ
  shadow_opacity : ℝ
  highlight_angle : ℝ
  highlight_size : ℝ
  highlight_opacity : ℝ
  area_width : ℝ
  area_height : ℝ
  blend_mode : String

/-- An `inkex.Ellipse` together with the style attributes the extension
sets on it. -/
structure EllipseShape where
  cx : ℝ
  cy : ℝ
  rx : ℝ
  ry : ℝ
  fill : String
  fillOpacity : Option ℝ
  stroke : String
  blendMode : String
  opacity : Option String

/-- `create_shadow_gradient` (`sweat_drop.py` lines 159-181): a linear
gradient `shadowGradient_<randint 1000 9999>` with stops
`(0%, #000000, shadow_opacity)` and `(100%, #000000, 0.0)`. -/
def create_shadow_gradient (o : Options) (v : ℕ) : Gradient :=
  { id := "shadowGradient_" ++ Nat.repr (randintVal 1000 9999 v)
    kind := GradientKind.linear
    stops := [⟨"0%", "#000000", o.shadow_opacity⟩, ⟨"100%", "#000000", 0⟩] }

/-- `create_drop_gradient` (`sweat_drop.py` lines 183-213): a radial
gradient `dropGradient_<randint 1000 9999>` with `cx=0.3`, `cy=0.3`,
`r=0.7` and stops `(0%, #ffffff, 0.0)`, `(37%, #121212, 0.014)`,
`(100%, #ffffff, 0.286)`. -/
def create_drop_gradient (_o : Options) (v : ℕ) : Gradient :=
  { id := "dropGradient_" ++ Nat.repr (randintVal 1000 9999 v)
    kind := GradientKind.radial 0.3 0.3 0.7
    stops := [⟨"0%", "#ffffff", 0⟩, ⟨"37%", "#121212", 0.014⟩,
              ⟨"100%", "#ffffff", 0.286⟩] }

/-- `create_shadow` (`sweat_drop.py` lines 94-114): the shadow ellipse
offset from `(x, y)` along `shadow_angle` by `shadow_distance`, plus the
shadow gradient it appends to the document defs. -/
def create_shadow (o : Options) (x y size : ℝ) (v : ℕ) :
    EllipseShape × Gradient :=
  let angle_rad := radians o.shadow_angle
  let shadow_x := x + Real.cos angle_rad * o.shadow_distance
  let shadow_y := y + Real.sin angle_rad * o.shadow_distance
  let g := create_shadow_gradient o v
  ({ cx := shadow_x, cy := shadow_y, rx := size * 0.6, ry := size * 0.8
     fill := "url(#" ++ g.id ++ ")", fillOpacity := none, stroke := "none"
     blendMode := o.blend_mode, opacity := none }, g)

/-- `create_main_drop` (`sweat_drop.py` lines 116-133): the body ellipse
at `(x, y)`, plus the radial body gradient it appends to the defs. -/
def create_main_drop (o : Options) (x y size : ℝ) (v : ℕ) :
    EllipseShape × Gradient :=
  let g := create_drop_gradient o v
  ({ cx := x, cy := y, rx := size * 0.6, ry := size * 0.8
     fill := "url(#" ++ g.id ++ ")", fillOpacity := none, stroke := "none"
     blendMode := o.blend_mode, opacity := some "1" }, g)

/-- `create_highlight` (`sweat_drop.py` lines 135-157): the white
highlight ellipse offset along `highlight_angle` by `size * 0.3`. -/
def create_highlight (o : Options) (x y size : ℝ) : EllipseShape :=
  let angle_rad := radians o.highlight_angle
  let highlight_offset := size * 0.3
  let highlight_x := x + Real.cos angle_rad * highlight_offset
  let highlight_y := y + Real.sin angle_rad * highlight_offset
  let highlight_size := size * o.highlight_size
  { cx := highlight_x, cy := highlight_y
    rx := highlight_size * 0.4, ry := highlight_size * 0.6
    fill := "#ffffff", fillOpacity := some o.highlight_opacity
    stroke := "none", blendMode := o.blend_mode, opacity := none }

/-- Size jitter factor `1.0 + random.uniform(-size_variation,
size_variation)` (`sweat_drop.py` line 69), with `u` the underlying
`random()` draw. -/
def size_factor (o : Options) (u : ℝ) : ℝ :=
  1 + uniformVal (-o.size_variation) o.size_variation u

/-- Resolved drop size `base_size * size_factor`
(`sweat_drop.py` line 70). -/
def resolved_size (o : Options) (u : ℝ) : ℝ := o.drop_size * size_factor o u

/-- Sampled x position `random.uniform(0, area_width)`
(`sweat_drop.py` line 73). -/
def sample_x (o : Options) (u : ℝ) : ℝ := uniformVal 0 o.area_width u

/-- Sampled y position `random.uniform(0, area_height)`
(`sweat_drop.py` line 74). -/
def sample_y (o : Options) (u : ℝ) : ℝ := uniformVal 0 o.area_height u

/-- One generated drop group: its `label` and its child shapes in
document order. -/
structure Drop where
  label : String
  children : List EllipseShape

/-- `create_single_drop` (`sweat_drop.py` lines 66-92): samples size and
position, then builds the group `[shadow, main drop, highlight]`;
returns the group and the two gradients appended to the defs (shadow
gradient first, body gradient second, following call order). -/
def create_single_drop (o : Options) (index : ℕ) (u1 u2 u3 : ℝ)
    (v1 v2 : ℕ) : Drop × List Gradient :=
  let drop_size := resolved_size o u1
  let x := sample_x o u2
  let y := sample_y o u3
  let shadow := create_shadow o x y drop_size v1
  let main_drop := create_main_drop o x y drop_size v2
  let highlight := create_highlight o x y drop_size
  ({ label := "Drop_" ++ Nat.repr (index + 1)
     children := [shadow.1, main_drop.1, highlight] },
   [shadow.2, main_drop.2])

/-- Observable output of one generation run: the drop groups added to
the main group, and the gradients appended to the document defs. -/
structure RunOutput where
  drops : List Drop
  defs : List Gradient

/-- `effect` (`sweat_drop.py` lines 45-64): one drop per loop index
`0 .. drop_count - 1` (`range` of a non-positive count is empty).
Drop `i` consumes float draws `3*i, 3*i+1, 3*i+2` and integer draws
`2*i, 2*i+1`, matching the call order of the source. -/
def effect (o : Options) (fs : ℕ → ℝ) (ivs : ℕ → ℕ) : RunOutput :=
  let results := (List.range o.drop_count.toNat).map fun i =>
    create_single_drop o i (fs (3 * i)) (fs (3 * i + 1)) (fs (3 * i + 2))
      (ivs (2 * i)) (ivs (2 * i + 1))
  { drops := results.map Prod.fst
    defs := (results.map Prod.snd).flatten }

/-- The `effect` entry point as actually run: the whole body sits inside
`try ... except Exception: pass`. Every operation of the body is total
on floats (no validation, no division, no I/O in the model scope), and
the handler would suppress any exception anyway, so the call always
completes normally. -/
def effect_run (o : Options) (fs : ℕ → ℝ) (ivs : ℕ → ℕ) :
    Except String RunOutput :=
  Except.ok (effect o fs ivs)

/-- Modelled from the spec (section 3, GenerationOptions): the validity
ranges of the numeric options — positive drop count, positive base size,
`size_variation` in `[0,1)`, opacities in `[0,1]`, positive placement
area. (Float non-finiteness is not representable over `ℝ`.) The source
contains no corresponding check. -/
def SpecValidOptions (o : Options) : Prop :=
  0 < o.drop_count ∧ 0 < o.drop_size ∧
  0 ≤ o.size_variation ∧ o.size_variation < 1 ∧
  0 ≤ o.shadow_opacity ∧ o.shadow_opacity ≤ 1 ∧
  0 ≤ o.highlight_opacity ∧ o.highlight_opacity ≤ 1 ∧
  0 < o.area_width ∧ 0 < o.area_height

/-- The worked example of the spec (section 8): one drop, base size 20,
no size variation, degenerate placement area, default shadow
parameters. -/
def exampleOptions : Options :=
  { drop_count := 1, drop_size := 20, size_variation := 0
    shadow_angle := 45, shadow_distance := 3, shadow_opacity := 0.515
    highlight_angle := 135, highlight_size := 0.3, highlight_opacity := 0.963
    area_width := 0, area_height := 0, blend_mode := "normal" }

/-- Options that violate the spec ranges (`size_variation = 2`), all
other fields in range. -/
def invalidOptions : Options :=
  { exampleOptions with
    size_variation := 2
    area_width := 200
    area_height := 200 }

/-- Options for a two-drop run. -/
def twoDropOptions : Options :=
  { exampleOptions with
    drop_count := 2
    area_width := 200
    area_height := 200 }

end SweatDrop

namespace Teardrop

/-- The parameters of `TeardropSweatDropsExtension.add_arguments`
(`sweatdrop_teardrop.py`). -/
structure Options where
  drop_count : ℤ
  drop_size : ℝ
  size_variation : ℝ
  teardrop_ratio : ℝ
  shadow_angle : ℝ
  shadow_distance : ℝ
  shadow_opacity : ℝ
  highlight_angle : ℝ
  highlight_size : ℝ
  highlight_opacity : ℝ
  area_width : ℝ
  area_height : ℝ
  rotation_variation : ℝ
  blend_mode : String

/-- An `inkex.PathElement` together with the style attributes the
extension sets on it, and the optional post-hoc rotation transform
`rotate(angle, cx, cy)`. -/
structure PathShape where
  d : List PathCmd
  fill : String
  fillOpacity : Option ℝ
  stroke : String
  blendMode : String
  opacity : Option String
  transform : Option (ℝ × ℝ × ℝ)

/-- `create_shadow_gradient` (`sweatdrop_teardrop.py` lines 201-222):
verbatim the same construction as in the ellipse variant. -/
def create_shadow_gradient (o : Options) (v : ℕ) : Gradient :=
  { id := "shadowGradient_" ++ Nat.repr (randintVal 1000 9999 v)
    kind := GradientKind.linear
    stops := [⟨"0%", "#000000", o.shadow_opacity⟩, ⟨"100%", "#000000", 0⟩] }

/-- `create_drop_gradient` (`sweatdrop_teardrop.py` lines 224-254):
verbatim the same construction as in the ellipse variant. -/
def create_drop_gradient (_o : Options) (v : ℕ) : Gradient :=
  { id := "dropGradient_" ++ Nat.repr (randintVal 1000 9999 v)
    kind := GradientKind.radial 0.3 0.3 0.7
    stops := [⟨"0%", "#ffffff", 0⟩, ⟨"37%", "#121212", 0.014⟩,
              ⟨"100%", "#ffffff", 0.286⟩] }

/-- `create_teardrop_path` (`sweatdrop_teardrop.py` lines 100-128): the
closed four-segment cubic Bezier outline. The `rotation` parameter is
accepted (as in the source) but never used in the path data. -/
def create_teardrop_path (o : Options) (x y size _rotation : ℝ) :
    List PathCmd :=
  let width := size * 0.6
  let height := size * o.teardrop_ratio
  let bottom_y := y + height * 0.3
  let top_y := y - height * 0.7
  let cx1 := x - width * 0.5
  let cx2 := x + width * 0.5
  let cy_mid := y
  [PathCmd.moveTo (x, bottom_y),
   PathCmd.curveTo (cx1, bottom_y) (cx1, cy_mid) (cx1, cy_mid - height * 0.2),
   PathCmd.curveTo (cx1, top_y + height * 0.3) (x - width * 0.2, top_y + height * 0.1)
     (x, top_y),
   PathCmd.curveTo (x + width * 0.2, top_y + height * 0.1) (cx2, top_y + height * 0.3)
     (cx2, cy_mid - height * 0.2),
   PathCmd.curveTo (cx2, cy_mid) (cx2, bottom_y) (x, bottom_y),
   PathCmd.closePath]

/-- `create_teardrop_shadow` (`sweatdrop_teardrop.py` lines 130-152):
shadow path at the offset centre, rotation attached as a transform about
that centre only when non-zero. -/
def create_teardrop_shadow (o : Options) (x y size rotation : ℝ) (v : ℕ) :
    PathShape × Gradient :=
  let angle_rad := radians o.shadow_angle
  let shadow_x := x + Real.cos angle_rad * o.shadow_distance
  let shadow_y := y + Real.sin angle_rad * o.shadow_distance
  let path_data := create_teardrop_path o shadow_x shadow_y size rotation
  let g := create_shadow_gradient o v
  ({ d := path_data, fill := "url(#" ++ g.id ++ ")", fillOpacity := none
     stroke := "none", blendMode := o.blend_mode, opacity := none
     transform := if rotation ≠ 0 then some (rotation, shadow_x, shadow_y)
       else none }, g)

/-- `create_teardrop_main` (`sweatdrop_teardrop.py` lines 154-173): body
path at the drop centre, rotation attached as a transform about the drop
centre only when non-zero. -/
def create_teardrop_main (o : Options) (x y size rotation : ℝ) (v : ℕ) :
    PathShape × Gradient :=
  let path_data := create_teardrop_path o x y size rotation
  let g := create_drop_gradient o v
  ({ d := path_data, fill := "url(#" ++ g.id ++ ")", fillOpacity := none
     stroke := "none", blendMode := o.blend_mode, opacity := some "1"
     transform := if rotation ≠ 0 then some (rotation, x, y) else none }, g)

/-- `create_teardrop_highlight` (`sweatdrop_teardrop.py` lines 175-199):
white highlight path at the highlight centre (offset `size * 0.2` along
`highlight_angle`), rotation attached about the highlight centre only
when non-zero. -/
def create_teardrop_highlight (o : Options) (x y size rotation : ℝ) :
    PathShape :=
  let angle_rad := radians o.highlight_angle
  let highlight_offset := size * 0.2
  let highlight_x := x + Real.cos angle_rad * highlight_offset
  let highlight_y := y + Real.sin angle_rad * highlight_offset
  let highlight_size := size * o.highlight_size
  let path_data := create_teardrop_path o highlight_x highlight_y
    highlight_size rotation
  { d := path_data, fill := "#ffffff", fillOpacity := some o.highlight_opacity
    stroke := "none", blendMode := o.blend_mode, opacity := none
    transform := if rotation ≠ 0 then some (rotation, highlight_x, highlight_y)
      else none }

/-- Size jitter factor (`sweatdrop_teardrop.py` line 72). -/
def size_factor (o : Options) (u : ℝ) : ℝ :=
  1 + uniformVal (-o.size_variation) o.size_variation u

/-- Resolved drop size (`sweatdrop_teardrop.py` line 73). -/
def resolved_size (o : Options) (u : ℝ) : ℝ := o.drop_size * size_factor o u

/-- Sampled x position (`sweatdrop_teardrop.py` line 76). -/
def sample_x (o : Options) (u : ℝ) : ℝ := uniformVal 0 o.area_width u

/-- Sampled y position (`sweatdrop_teardrop.py` line 77). -/
def sample_y (o : Options) (u : ℝ) : ℝ := uniformVal 0 o.area_height u

/-- Sampled rotation `random.uniform(-rotation_variation,
rotation_variation)` (`sweatdrop_teardrop.py` line 80). -/
def sample_rotation (o : Options) (u : ℝ) : ℝ :=
  uniformVal (-o.rotation_variation) o.rotation_variation u

/-- One generated teardrop group: its `label` and its child shapes in
document order. -/
structure Drop where
  label : String
  children : List PathShape

/-- `create_single_teardrop` (`sweatdrop_teardrop.py` lines 69-98):
samples size, position and rotation, then builds the group
`[shadow, main teardrop, highlight]`; returns the group and the two
gradients appended to the defs in call order. -/
def create_single_teardrop (o : Options) (index : ℕ) (u1 u2 u3 u4 : ℝ)
    (v1 v2 : ℕ) : Drop × List Gradient :=
  let drop_size := resolved_size o u1
  let x := sample_x o u2
  let y := sample_y o u3
  let rotation := sample_rotation o u4
  let shadow := create_teardrop_shadow o x y drop_size rotation v1
  let main_drop := create_teardrop_main o x y drop_size rotation v2
  let highlight := create_teardrop_highlight o x y drop_size rotation
  ({ label := "Teardrop_" ++ Nat.repr (index + 1)
     children := [shadow.1, main_drop.1, highlight] },
   [shadow.2, main_drop.2])

/-- Observable output of one generation run. -/
structure RunOutput where
  drops : List Drop
  defs : List Gradient

/-- `effect` (`sweatdrop_teardrop.py` lines 48-67): one teardrop per
loop index. Drop `i` consumes float draws `4*i .. 4*i+3` and integer
draws `2*i, 2*i+1`, matching the call order of the source. -/
def effect (o : Options) (fs : ℕ → ℝ) (ivs : ℕ → ℕ) : RunOutput :=
  let results := (List.range o.drop_count.toNat).map fun i =>
    create_single_teardrop o i (fs (4 * i)) (fs (4 * i + 1)) (fs (4 * i + 2))
      (fs (4 * i + 3)) (ivs (2 * i)) (ivs (2 * i + 1))
  { drops := results.map Prod.fst
    defs := (results.map Prod.snd).flatten }

/-- The `effect` entry point as actually run: the whole body sits inside
`try ... except Exception: pass`; the body is total and the handler
would suppress any exception anyway. -/
def effect_run (o : Options) (fs : ℕ → ℝ) (ivs : ℕ → ℕ) :
    Except String RunOutput :=
  Except.ok (effect o fs ivs)

/-- Teardrop options mirroring the spec example and the extension
defaults. -/
def exampleOptions : Options :=
  { drop_count := 1, drop_size := 20, size_variation := 0
    teardrop_ratio := 1.5, shadow_angle := 45, shadow_distance := 3
    shadow_opacity := 0.2, highlight_angle := 135, highlight_size := 0.3
    highlight_opacity := 1, area_width := 0, area_height := 0
    rotation_variation := 30, blend_mode := "hard-light" }

end Teardrop

/-- Decimal digit characters of `n`, most significant first: the
reference form of what `Nat.toDigitsCore` computes. -/
def decimalChars (n : ℕ) : List Char :=
  if _h : n < 10 then [Nat.digitChar n]
  else decimalChars (n / 10) ++ [Nat.digitChar (n % 10)]
decreasing_by exact Nat.div_lt_self (by omega) (by omega)

end

theorem decimalChars_eq (n : ℕ) :
    decimalChars n = if n < 10 then [Nat.digitChar n]
      else decimalChars (n / 10) ++ [Nat.digitChar (n % 10)] := by
  rw [decimalChars]
  split <;> simp_all

theorem decimalChars_ne_nil (n : ℕ) : decimalChars n ≠ [] := by
  rw [decimalChars_eq]
  split <;> simp

theorem toDigitsCore_eq_decimalChars :
    ∀ (fuel n : ℕ) (acc : List Char), n < fuel →
      Nat.toDigitsCore 10 fuel n acc = decimalChars n ++ acc := by
  intro fuel
  induction fuel with
  | zero => intro n acc h; omega
  | succ f ih =>
    intro n acc h
    rw [Nat.toDigitsCore]
    by_cases h10 : n / 10 = 0
    · have hn : n < 10 := by omega
      rw [if_pos h10, decimalChars_eq n, if_pos hn, Nat.mod_eq_of_lt hn]
      rfl
    · have hn : ¬ n < 10 := by omega
      rw [if_neg h10, ih (n / 10) _ (by omega), decimalChars_eq n, if_neg hn,
        List.append_assoc]
      rfl

theorem digitChar_inj_fin :
    ∀ m n : Fin 10, Nat.digitChar m.val = Nat.digitChar n.val → m = n := by
  decide

theorem digitChar_inj_lt {m n : ℕ} (hm : m < 10) (hn : n < 10)
    (h : Nat.digitChar m = Nat.digitChar n) : m = n :=
  congrArg Fin.val (digitChar_inj_fin ⟨m, hm⟩ ⟨n, hn⟩ h)

theorem decimalChars_injective :
    ∀ m n : ℕ, decimalChars m = decimalChars n → m = n := by
  intro m
  induction m using Nat.strong_induction_on with
  | _ m ih =>
    intro n h
    by_cases hm : m < 10 <;> by_cases hn : n < 10
    · rw [decimalChars_eq m, if_pos hm, decimalChars_eq n, if_pos hn] at h
      exact digitChar_inj_lt hm hn (List.cons.inj h).1
    · exfalso
      rw [decimalChars_eq m, if_pos hm, decimalChars_eq n, if_neg hn] at h
      have hlen := congrArg List.length h
      simp only [List.length_cons, List.length_nil, List.length_append] at hlen
      exact decimalChars_ne_nil (n / 10)
        (List.eq_nil_of_length_eq_zero (by omega))
    · exfalso
      rw [decimalChars_eq m, if_neg hm, decimalChars_eq n, if_pos hn] at h
      have hlen := congrArg List.length h
      simp only [List.length_cons, List.length_nil, List.length_append] at hlen
      exact decimalChars_ne_nil (m / 10)
        (List.eq_nil_of_length_eq_zero (by omega))
    · rw [decimalChars_eq m, if_neg hm, decimalChars_eq n, if_neg hn] at h
      have h2 := congrArg List.reverse h
      simp only [List.reverse_append, List.reverse_cons, List.reverse_nil,
        List.nil_append, List.cons_append, List.cons.injEq] at h2
      obtain ⟨hd, ht⟩ := h2
      have hdiv : m / 10 = n / 10 :=
        ih (m / 10) (Nat.div_lt_self (by omega) (by omega)) (n / 10)
          (List.reverse_injective ht)
      have hmod : m % 10 = n % 10 :=
        digitChar_inj_lt (Nat.mod_lt _ (by omega)) (Nat.mod_lt _ (by omega)) hd
      omega

theorem nat_repr_eq_decimalChars (n : ℕ) :
    Nat.repr n = (decimalChars n).asString := by
  rw [Nat.repr, Nat.toDigits,
    toDigitsCore_eq_decimalChars (n + 1) n [] (by omega), List.append_nil]

theorem nat_repr_injective {m n : ℕ} (h : Nat.repr m = Nat.repr n) :
    m = n := by
  rw [nat_repr_eq_decimalChars, nat_repr_eq_decimalChars] at h
  exact decimalChars_injective m n (by
    have := congrArg String.data h
    simpa [List.asString] using this)

theorem string_append_left_cancel {s t u : String} (h : s ++ t = s ++ u) :
    t = u := by
  have hd := congrArg String.data h
  rw [String.data_append, String.data_append] at hd
  have := List.append_cancel_left hd
  cases t
  cases u
  exact congrArg String.mk this

theorem shadow_drop_id_ne (s t : String) :
    "shadowGradient_" ++ s ≠ "dropGradient_" ++ t := by
  intro h
  have h1 : ("shadowGradient_" ++ s).data.head? = some 's' := by
    rw [String.data_append]; rfl
  have h2 : ("dropGradient_" ++ t).data.head? = some 'd' := by
    rw [String.data_append]; rfl
  rw [h, h2] at h1
  simp at h1

theorem shadow_id_inj {a b : ℕ}
    (h : ("shadowGradient_" ++ Nat.repr a) = ("shadowGradient_" ++ Nat.repr b)) :
    a = b :=
  nat_repr_injective (string_append_left_cancel h)

theorem drop_id_inj {a b : ℕ}
    (h : ("dropGradient_" ++ Nat.repr a) = ("dropGradient_" ++ Nat.repr b)) :
    a = b :=
  nat_repr_injective (string_append_left_cancel h)

theorem nodup_gradient_id_list (n : ℕ) (s d : ℕ → ℕ)
    (hs : ∀ i j, i < n → j < n → i ≠ j → s i ≠ s j)
    (hd : ∀ i j, i < n → j < n → i ≠ j → d i ≠ d j) :
    (((List.range n).map fun i =>
      ["shadowGradient_" ++ Nat.repr (s i),
       "dropGradient_" ++ Nat.repr (d i)]).flatten).Nodup := by
  rw [List.nodup_flatten]
  constructor
  · intro l hl
    rw [List.mem_map] at hl
    obtain ⟨i, _, rfl⟩ := hl
    simp only [List.nodup_cons, List.mem_singleton, List.nodup_nil,
      List.not_mem_nil, not_false_iff, and_true]
    exact shadow_drop_id_ne _ _
  · rw [List.pairwise_map]
    refine (List.pairwise_lt_range n).imp_of_mem ?_
    intro i j hi hj hij
    rw [List.mem_range] at hi hj
    intro a hai haj
    rw [List.mem_cons, List.mem_singleton] at hai haj
    rcases hai with hai | hai <;> rcases haj with haj | haj <;> subst hai
    · exact hs i j hi hj (Nat.ne_of_lt hij) (nat_repr_injective
        (string_append_left_cancel haj))
    · exact shadow_drop_id_ne _ _ haj
    · exact shadow_drop_id_ne _ _ haj.symm
    · exact hd i j hi hj (Nat.ne_of_lt hij) (nat_repr_injective
        (string_append_left_cancel haj))

/-- C1: for both variants, one generation run with `drop_count ≥ 0`
produces exactly `drop_count` drop groups, and the `i`-th emitted group
is the one built with index `i` (consuming the `i`-th block of random
draws), i.e. groups appear in index order `0 .. drop_count - 1`. -/
theorem drop_count_exact (o : SweatDrop.Options) (o2 : Teardrop.Options)
    (fs fs2 : ℕ → ℝ) (ivs ivs2 : ℕ → ℕ)
    (h : 0 ≤ o.drop_count) (h2 : 0 ≤ o2.drop_count) :
    (((SweatDrop.effect o fs ivs).drops.length : ℤ) = o.drop_count ∧
     ∀ i (hi : i < (SweatDrop.effect o fs ivs).drops.length),
       (SweatDrop.effect o fs ivs).drops.get ⟨i, hi⟩ =
         (SweatDrop.create_single_drop o i (fs (3 * i)) (fs (3 * i + 1))
           (fs (3 * i + 2)) (ivs (2 * i)) (ivs (2 * i + 1))).1) ∧
    (((Teardrop.effect o2 fs2 ivs2).drops.length : ℤ) = o2.drop_count ∧
     ∀ i (hi : i < (Teardrop.effect o2 fs2 ivs2).drops.length),
       (Teardrop.effect o2 fs2 ivs2).drops.get ⟨i, hi⟩ =
         (Teardrop.create_single_teardrop o2 i (fs2 (4 * i)) (fs2 (4 * i + 1))
           (fs2 (4 * i + 2)) (fs2 (4 * i + 3)) (ivs2 (2 * i))
           (ivs2 (2 * i + 1))).1) := by
  refine ⟨⟨?_, ?_⟩, ⟨?_, ?_⟩⟩
  · simp only [SweatDrop.effect, List.length_map, List.length_range]
    omega
  · intro i hi
    simp [SweatDrop.effect, List.get_eq_getElem]
  · simp only [Teardrop.effect, List.length_map, List.length_range]
    omega
  · intro i hi
    simp [Teardrop.effect, List.get_eq_getElem]

/-- C1 witness: the example options request one drop and the run indeed
emits exactly one. -/
theorem drop_count_exact_witness :
    0 ≤ SweatDrop.exampleOptions.drop_count ∧
    0 ≤ Teardrop.exampleOptions.drop_count ∧
    ((SweatDrop.effect SweatDrop.exampleOptions (fun _ => 0)
        (fun _ => 0)).drops.length : ℤ) =
      SweatDrop.exampleOptions.drop_count ∧
    ((Teardrop.effect Teardrop.exampleOptions (fun _ => 0)
        (fun _ => 0)).drops.length : ℤ) =
      Teardrop.exampleOptions.drop_count := by
  have h1 : (0 : ℤ) ≤ SweatDrop.exampleOptions.drop_count := by
    norm_num [SweatDrop.exampleOptions]
  have h2 : (0 : ℤ) ≤ Teardrop.exampleOptions.drop_count := by
    norm_num [Teardrop.exampleOptions]
  have hmain := drop_count_exact SweatDrop.exampleOptions
    Teardrop.exampleOptions (fun _ => 0) (fun _ => 0) (fun _ => 0)
    (fun _ => 0) h1 h2
  exact ⟨h1, h2, hmain.1.1, hmain.2.1⟩

/-- C10: in both variants every generated drop group has exactly three
children, appended in the fixed order shadow, body, highlight. -/
theorem drop_children_shadow_body_highlight (o : SweatDrop.Options)
    (o2 : Teardrop.Options) (i : ℕ) (u1 u2 u3 u4 : ℝ) (v1 v2 : ℕ) :
    ((SweatDrop.create_single_drop o i u1 u2 u3 v1 v2).1.children.length = 3 ∧
     (SweatDrop.create_single_drop o i u1 u2 u3 v1 v2).1.children =
       [(SweatDrop.create_shadow o (SweatDrop.sample_x o u2)
           (SweatDrop.sample_y o u3) (SweatDrop.resolved_size o u1) v1).1,
        (SweatDrop.create_main_drop o (SweatDrop.sample_x o u2)
           (SweatDrop.sample_y o u3) (SweatDrop.resolved_size o u1) v2).1,
        SweatDrop.create_highlight o (SweatDrop.sample_x o u2)
          (SweatDrop.sample_y o u3) (SweatDrop.resolved_size o u1)]) ∧
    ((Teardrop.create_single_teardrop o2 i u1 u2 u3 u4 v1 v2).1.children.length = 3 ∧
     (Teardrop.create_single_teardrop o2 i u1 u2 u3 u4 v1 v2).1.children =
       [(Teardrop.create_teardrop_shadow o2 (Teardrop.sample_x o2 u2)
           (Teardrop.sample_y o2 u3) (Teardrop.resolved_size o2 u1)
           (Teardrop.sample_rotation o2 u4) v1).1,
        (Teardrop.create_teardrop_main o2 (Teardrop.sample_x o2 u2)
           (Teardrop.sample_y o2 u3) (Teardrop.resolved_size o2 u1)
           (Teardrop.sample_rotation o2 u4) v2).1,
        Teardrop.create_teardrop_highlight o2 (Teardrop.sample_x o2 u2)
          (Teardrop.sample_y o2 u3) (Teardrop.resolved_size o2 u1)
          (Teardrop.sample_rotation o2 u4)]) :=
  ⟨⟨rfl, rfl⟩, ⟨rfl, rfl⟩⟩

/-- C5: for every centre, size and ratio, `create_teardrop_path` is a
closed contour of exactly four cubic Bezier segments, ending in `Z`,
whose first and last emitted coordinate pairs are both
`(x, y + height * 0.3)` with `height = size * teardrop_ratio`. -/
theorem teardrop_path_closed (o : Teardrop.Options)
    (x y size rotation : ℝ) :
    cubicSegmentCount (Teardrop.create_teardrop_path o x y size rotation) = 4 ∧
    (emittedPoints (Teardrop.create_teardrop_path o x y size rotation)).head? =
      some (x, y + size * o.teardrop_ratio * 0.3) ∧
    (emittedPoints (Teardrop.create_teardrop_path o x y size rotation)).getLast? =
      some (x, y + size * o.teardrop_ratio * 0.3) ∧
    (Teardrop.create_teardrop_path o x y size rotation).getLast? =
      some PathCmd.closePath :=
  ⟨rfl, rfl, rfl, rfl⟩

/-- C7 counterexample: options with the out-of-range value
`size_variation = 2` do not make the generation call fail — the run
still completes normally (the source validates nothing and wraps the
body in `except Exception: pass`), contradicting the claimed fail-fast
behaviour. -/
theorem generation_fail_fast_counterexample :
    ¬ SweatDrop.SpecValidOptions SweatDrop.invalidOptions ∧
    (SweatDrop.effect_run SweatDrop.invalidOptions (fun _ => 0)
      (fun _ => 0)).isOk = true := by
  refine ⟨?_, rfl⟩
  intro h
  have hv := h.2.2.2.1
  norm_num [SweatDrop.invalidOptions, SweatDrop.exampleOptions] at hv

/-- C7 amended: the generation call never raises, for any options
whatsoever — there is no parameter validation and the whole body is
wrapped in a blanket exception suppressor — and invalid parameters
silently yield degenerate geometry (a negative resolved size). -/
theorem generation_never_fails (o : SweatDrop.Options)
    (o2 : Teardrop.Options) (fs fs2 : ℕ → ℝ) (ivs ivs2 : ℕ → ℕ) :
    (SweatDrop.effect_run o fs ivs).isOk = true ∧
    (Teardrop.effect_run o2 fs2 ivs2).isOk = true ∧
    SweatDrop.resolved_size SweatDrop.invalidOptions 0 < 0 := by
  refine ⟨rfl, rfl, ?_⟩
  norm_num [SweatDrop.resolved_size, SweatDrop.size_factor, uniformVal,
    SweatDrop.invalidOptions, SweatDrop.exampleOptions]

/-- C2: for both variants the resolved drop size equals
`base_size * (1 + u)` with `u = uniform(-size_variation, size_variation)`
and hence lies in
`[base_size * (1 - size_variation), base_size * (1 + size_variation)]`;
no clamping is applied, so with `size_variation = 1` the size can be
exactly zero and with `size_variation = 2` it is negative. -/
theorem resolved_size_in_interval :
    (∀ (o : SweatDrop.Options) (u : ℝ), 0 ≤ o.drop_size →
      0 ≤ o.size_variation → 0 ≤ u → u < 1 →
      SweatDrop.resolved_size o u =
        o.drop_size * (1 + uniformVal (-o.size_variation) o.size_variation u) ∧
      o.drop_size * (1 - o.size_variation) ≤ SweatDrop.resolved_size o u ∧
      SweatDrop.resolved_size o u ≤ o.drop_size * (1 + o.size_variation)) ∧
    (∀ (o2 : Teardrop.Options) (u : ℝ), 0 ≤ o2.drop_size →
      0 ≤ o2.size_variation → 0 ≤ u → u < 1 →
      Teardrop.resolved_size o2 u =
        o2.drop_size * (1 + uniformVal (-o2.size_variation) o2.size_variation u) ∧
      o2.drop_size * (1 - o2.size_variation) ≤ Teardrop.resolved_size o2 u ∧
      Teardrop.resolved_size o2 u ≤ o2.drop_size * (1 + o2.size_variation)) ∧
    SweatDrop.resolved_size
      { SweatDrop.exampleOptions with size_variation := 1 } 0 = 0 ∧
    SweatDrop.resolved_size SweatDrop.invalidOptions 0 < 0 := by
  refine ⟨?_, ?_, ?_, ?_⟩
  · intro o u hd hs hu hu1
    refine ⟨rfl, ?_, ?_⟩
    · simp only [SweatDrop.resolved_size, SweatDrop.size_factor, uniformVal]
      nlinarith [mul_nonneg (mul_nonneg hd hs) hu]
    · simp only [SweatDrop.resolved_size, SweatDrop.size_factor, uniformVal]
      nlinarith [mul_nonneg (mul_nonneg hd hs)
        (by linarith : (0 : ℝ) ≤ 1 - u)]
  · intro o2 u hd hs hu hu1
    refine ⟨rfl, ?_, ?_⟩
    · simp only [Teardrop.resolved_size, Teardrop.size_factor, uniformVal]
      nlinarith [mul_nonneg (mul_nonneg hd hs) hu]
    · simp only [Teardrop.resolved_size, Teardrop.size_factor, uniformVal]
      nlinarith [mul_nonneg (mul_nonneg hd hs)
        (by linarith : (0 : ℝ) ≤ 1 - u)]
  · norm_num [SweatDrop.resolved_size, SweatDrop.size_factor, uniformVal,
      SweatDrop.exampleOptions]
  · norm_num [SweatDrop.resolved_size, SweatDrop.size_factor, uniformVal,
      SweatDrop.invalidOptions, SweatDrop.exampleOptions]

/-- C2 witness: the interval bounds hold at the example options with
draw `1/2`. -/
theorem resolved_size_in_interval_witness :
    SweatDrop.exampleOptions.drop_size *
        (1 - SweatDrop.exampleOptions.size_variation) ≤
      SweatDrop.resolved_size SweatDrop.exampleOptions (1 / 2) ∧
    SweatDrop.resolved_size SweatDrop.exampleOptions (1 / 2) ≤
      SweatDrop.exampleOptions.drop_size *
        (1 + SweatDrop.exampleOptions.size_variation) := by
  have h := resolved_size_in_interval.1 SweatDrop.exampleOptions (1 / 2)
    (by norm_num [SweatDrop.exampleOptions])
    (by norm_num [SweatDrop.exampleOptions]) (by norm_num) (by norm_num)
  exact ⟨h.2.1, h.2.2⟩

/-- C3: for both variants, with a positive placement area and underlying
`random()` draws in `[0, 1)`, the sampled centre coordinates satisfy
`0 ≤ x < area_width` and `0 ≤ y < area_height`. -/
theorem position_in_area :
    (∀ (o : SweatDrop.Options) (u v : ℝ), 0 < o.area_width →
      0 < o.area_height → 0 ≤ u → u < 1 → 0 ≤ v → v < 1 →
      0 ≤ SweatDrop.sample_x o u ∧ SweatDrop.sample_x o u < o.area_width ∧
      0 ≤ SweatDrop.sample_y o v ∧ SweatDrop.sample_y o v < o.area_height) ∧
    (∀ (o2 : Teardrop.Options) (u v : ℝ), 0 < o2.area_width →
      0 < o2.area_height → 0 ≤ u → u < 1 → 0 ≤ v → v < 1 →
      0 ≤ Teardrop.sample_x o2 u ∧ Teardrop.sample_x o2 u < o2.area_width ∧
      0 ≤ Teardrop.sample_y o2 v ∧ Teardrop.sample_y o2 v < o2.area_height) := by
  constructor
  · intro o u v hw hh hu hu1 hv hv1
    simp only [SweatDrop.sample_x, SweatDrop.sample_y, uniformVal, sub_zero,
      zero_add]
    exact ⟨mul_nonneg hw.le hu, mul_lt_of_lt_one_right hw hu1,
      mul_nonneg hh.le hv, mul_lt_of_lt_one_right hh hv1⟩
  · intro o2 u v hw hh hu hu1 hv hv1
    simp only [Teardrop.sample_x, Teardrop.sample_y, uniformVal, sub_zero,
      zero_add]
    exact ⟨mul_nonneg hw.le hu, mul_lt_of_lt_one_right hw hu1,
      mul_nonneg hh.le hv, mul_lt_of_lt_one_right hh hv1⟩

/-- C3 witness: position bounds hold at the two-drop options
(200 by 200 area) with draws `1/2`. -/
theorem position_in_area_witness :
    0 ≤ SweatDrop.sample_x SweatDrop.twoDropOptions (1 / 2) ∧
    SweatDrop.sample_x SweatDrop.twoDropOptions (1 / 2) <
      SweatDrop.twoDropOptions.area_width ∧
    0 ≤ SweatDrop.sample_y SweatDrop.twoDropOptions (1 / 2) ∧
    SweatDrop.sample_y SweatDrop.twoDropOptions (1 / 2) <
      SweatDrop.twoDropOptions.area_height :=
  position_in_area.1 SweatDrop.twoDropOptions (1 / 2) (1 / 2)
    (by norm_num [SweatDrop.twoDropOptions, SweatDrop.exampleOptions])
    (by norm_num [SweatDrop.twoDropOptions, SweatDrop.exampleOptions])
    (by norm_num) (by norm_num) (by norm_num) (by norm_num)

/-- C4: in both variants the shadow gradient is linear with exactly the
two stops `(0%, #000000, shadow_opacity)` and `(100%, #000000, 0.0)`,
and the body gradient is radial with centre `(0.3, 0.3)`, radius `0.7`
and exactly the three stops `(0%, #ffffff, 0.0)`, `(37%, #121212,
0.014)`, `(100%, #ffffff, 0.286)`; the gradients emitted for a drop are
functions of the options and the random id suffix only — independent of
the drop's position and size — and the stop lists agree between the two
variants (the shadow ones whenever the `shadow_opacity` options agree,
the body ones unconditionally). -/
theorem gradient_stops_fixed (o : SweatDrop.Options) (o2 : Teardrop.Options)
    (v1 v2 : ℕ) (i : ℕ) (u1 u2 u3 u4 : ℝ)
    (hop : o.shadow_opacity = o2.shadow_opacity) :
    ((SweatDrop.create_shadow_gradient o v1).kind = GradientKind.linear ∧
     (SweatDrop.create_shadow_gradient o v1).stops =
       [⟨"0%", "#000000", o.shadow_opacity⟩, ⟨"100%", "#000000", 0⟩] ∧
     (SweatDrop.create_drop_gradient o v2).kind =
       GradientKind.radial 0.3 0.3 0.7 ∧
     (SweatDrop.create_drop_gradient o v2).stops =
       [⟨"0%", "#ffffff", 0⟩, ⟨"37%", "#121212", 0.014⟩,
        ⟨"100%", "#ffffff", 0.286⟩]) ∧
    ((Teardrop.create_shadow_gradient o2 v1).kind = GradientKind.linear ∧
     (Teardrop.create_shadow_gradient o2 v1).stops =
       [⟨"0%", "#000000", o2.shadow_opacity⟩, ⟨"100%", "#000000", 0⟩] ∧
     (Teardrop.create_drop_gradient o2 v2).kind =
       GradientKind.radial 0.3 0.3 0.7 ∧
     (Teardrop.create_drop_gradient o2 v2).stops =
       [⟨"0%", "#ffffff", 0⟩, ⟨"37%", "#121212", 0.014⟩,
        ⟨"100%", "#ffffff", 0.286⟩]) ∧
    ((SweatDrop.create_shadow_gradient o v1).stops =
       (Teardrop.create_shadow_gradient o2 v1).stops ∧
     (SweatDrop.create_drop_gradient o v2).stops =
       (Teardrop.create_drop_gradient o2 v2).stops) ∧
    ((SweatDrop.create_single_drop o i u1 u2 u3 v1 v2).2 =
       [SweatDrop.create_shadow_gradient o v1,
        SweatDrop.create_drop_gradient o v2] ∧
     (Teardrop.create_single_teardrop o2 i u1 u2 u3 u4 v1 v2).2 =
       [Teardrop.create_shadow_gradient o2 v1,
        Teardrop.create_drop_gradient o2 v2]) := by
  refine ⟨⟨rfl, rfl, rfl, rfl⟩, ⟨rfl, rfl, rfl, rfl⟩, ⟨?_, rfl⟩, ⟨rfl, rfl⟩⟩
  simp only [SweatDrop.create_shadow_gradient, Teardrop.create_shadow_gradient,
    hop]

/-- C4 witness: at matching shadow opacities the two variants emit
identical shadow gradient stop lists. -/
theorem gradient_stops_fixed_witness :
    ({ SweatDrop.exampleOptions with
        shadow_opacity := 0.2 } : SweatDrop.Options).shadow_opacity =
      Teardrop.exampleOptions.shadow_opacity ∧
    (SweatDrop.create_shadow_gradient
        { SweatDrop.exampleOptions with shadow_opacity := 0.2 } 0).stops =
      (Teardrop.create_shadow_gradient Teardrop.exampleOptions 0).stops := by
  have hop : ({ SweatDrop.exampleOptions with
      shadow_opacity := 0.2 } : SweatDrop.Options).shadow_opacity =
      Teardrop.exampleOptions.shadow_opacity := by
    norm_num [SweatDrop.exampleOptions, Teardrop.exampleOptions]
  exact ⟨hop, (gradient_stops_fixed
    { SweatDrop.exampleOptions with shadow_opacity := 0.2 }
    Teardrop.exampleOptions 0 0 0 0 0 0 0 hop).2.2.1.1⟩

/-- C6: in the ellipse variant the shadow ellipse is centred at the drop
position plus `(cos(radians shadow_angle) * shadow_distance,
sin(radians shadow_angle) * shadow_distance)` with radii `size * 0.6`
and `size * 0.8`; and on the spec's example options (one drop, base size
20, no variation, zero area, `shadow_angle = 45`,
`shadow_distance = 3`) the run emits exactly one drop, positioned at
`(0, 0)`, of size exactly `20`, whose shadow centre offset is
`(cos 45° * 3, sin 45° * 3) = (3√2/2, 3√2/2)`. -/
theorem shadow_offset_and_example (o : SweatDrop.Options)
    (x y size : ℝ) (v : ℕ) (fs : ℕ → ℝ) (ivs : ℕ → ℕ) :
    ((SweatDrop.create_shadow o x y size v).1.cx =
       x + Real.cos (radians o.shadow_angle) * o.shadow_distance ∧
     (SweatDrop.create_shadow o x y size v).1.cy =
       y + Real.sin (radians o.shadow_angle) * o.shadow_distance ∧
     (SweatDrop.create_shadow o x y size v).1.rx = size * 0.6 ∧
     (SweatDrop.create_shadow o x y size v).1.ry = size * 0.8) ∧
    ((SweatDrop.effect SweatDrop.exampleOptions fs ivs).drops.length = 1 ∧
     (SweatDrop.effect SweatDrop.exampleOptions fs ivs).drops =
       [(SweatDrop.create_single_drop SweatDrop.exampleOptions 0 (fs 0)
          (fs 1) (fs 2) (ivs 0) (ivs 1)).1] ∧
     SweatDrop.sample_x SweatDrop.exampleOptions (fs 1) = 0 ∧
     SweatDrop.sample_y SweatDrop.exampleOptions (fs 2) = 0 ∧
     SweatDrop.resolved_size SweatDrop.exampleOptions (fs 0) = 20 ∧
     (SweatDrop.create_shadow SweatDrop.exampleOptions 0 0 20 (ivs 0)).1.cx =
       Real.sqrt 2 / 2 * 3 ∧
     (SweatDrop.create_shadow SweatDrop.exampleOptions 0 0 20 (ivs 0)).1.cy =
       Real.sqrt 2 / 2 * 3) := by
  have hrad : radians (45 : ℝ) = Real.pi / 4 := by
    unfold radians
    ring
  refine ⟨⟨rfl, rfl, rfl, rfl⟩, ?_, ?_, ?_, ?_, ?_, ?_, ?_⟩
  · simp [SweatDrop.effect, SweatDrop.exampleOptions]
  · simp [SweatDrop.effect, SweatDrop.exampleOptions, List.range_succ]
  · norm_num [SweatDrop.sample_x, uniformVal, SweatDrop.exampleOptions]
  · norm_num [SweatDrop.sample_y, uniformVal, SweatDrop.exampleOptions]
  · norm_num [SweatDrop.resolved_size, SweatDrop.size_factor, uniformVal,
      SweatDrop.exampleOptions]
  · show (0 : ℝ) + Real.cos (radians SweatDrop.exampleOptions.shadow_angle) *
      SweatDrop.exampleOptions.shadow_distance = Real.sqrt 2 / 2 * 3
    have : SweatDrop.exampleOptions.shadow_angle = 45 := rfl
    rw [this, hrad, Real.cos_pi_div_four]
    show (0 : ℝ) + Real.sqrt 2 / 2 * SweatDrop.exampleOptions.shadow_distance =
      Real.sqrt 2 / 2 * 3
    have h3 : SweatDrop.exampleOptions.shadow_distance = 3 := rfl
    rw [h3]
    ring
  · show (0 : ℝ) + Real.sin (radians SweatDrop.exampleOptions.shadow_angle) *
      SweatDrop.exampleOptions.shadow_distance = Real.sqrt 2 / 2 * 3
    have : SweatDrop.exampleOptions.shadow_angle = 45 := rfl
    rw [this, hrad, Real.sin_pi_div_four]
    show (0 : ℝ) + Real.sqrt 2 / 2 * SweatDrop.exampleOptions.shadow_distance =
      Real.sqrt 2 / 2 * 3
    have h3 : SweatDrop.exampleOptions.shadow_distance = 3 := rfl
    rw [h3]
    ring

/-- C9: the control-point path data of `create_teardrop_path` is
independent of the rotation value; with rotation `0` no transform is
attached to any of the three shapes; and a non-zero rotation is attached
only as a post-hoc rotation transform about the shape's own centre — the
shadow about its offset centre, the body about the drop centre, the
highlight about the highlight centre. -/
theorem rotation_post_hoc_transform (o : Teardrop.Options)
    (x y size r r2 : ℝ) (v : ℕ) :
    Teardrop.create_teardrop_path o x y size r =
      Teardrop.create_teardrop_path o x y size r2 ∧
    (Teardrop.create_teardrop_shadow o x y size 0 v).1.transform = none ∧
    (Teardrop.create_teardrop_main o x y size 0 v).1.transform = none ∧
    (Teardrop.create_teardrop_highlight o x y size 0).transform = none ∧
    (r ≠ 0 →
      (Teardrop.create_teardrop_shadow o x y size r v).1.transform =
        some (r, x + Real.cos (radians o.shadow_angle) * o.shadow_distance,
          y + Real.sin (radians o.shadow_angle) * o.shadow_distance) ∧
      (Teardrop.create_teardrop_main o x y size r v).1.transform =
        some (r, x, y) ∧
      (Teardrop.create_teardrop_highlight o x y size r).transform =
        some (r, x + Real.cos (radians o.highlight_angle) * (size * 0.2),
          y + Real.sin (radians o.highlight_angle) * (size * 0.2)) ∧
      (Teardrop.create_teardrop_main o x y size r v).1.d =
        Teardrop.create_teardrop_path o x y size 0) := by
  refine ⟨rfl, ?_, ?_, ?_, ?_⟩
  · simp [Teardrop.create_teardrop_shadow]
  · simp [Teardrop.create_teardrop_main]
  · simp [Teardrop.create_teardrop_highlight]
  · intro hr
    refine ⟨?_, ?_, ?_, rfl⟩
    · simp only [Teardrop.create_teardrop_shadow]
      rw [if_pos hr]
    · simp only [Teardrop.create_teardrop_main]
      rw [if_pos hr]
    · simp only [Teardrop.create_teardrop_highlight]
      rw [if_pos hr]

/-- C9 witness: with rotation `5` the body path of a teardrop at
`(1, 2)` carries the transform `rotate(5, 1, 2)`. -/
theorem rotation_post_hoc_transform_witness :
    (5 : ℝ) ≠ 0 ∧
    (Teardrop.create_teardrop_main Teardrop.exampleOptions 1 2 20 5 0).1.transform =
      some (5, 1, 2) :=
  ⟨by norm_num,
   ((rotation_post_hoc_transform Teardrop.exampleOptions 1 2 20 5 5 0).2.2.2.2
     (by norm_num)).2.1⟩

/-- C8 counterexample: with `drop_count = 2` and a random sequence whose
integer draws are all `0` (so every `randint(1000, 9999)` call returns
`1000`), the four gradient identifiers added to the document defs are
`shadowGradient_1000, dropGradient_1000, shadowGradient_1000,
dropGradient_1000` — not pairwise distinct. -/
theorem gradient_ids_unique_counterexample :
    ((SweatDrop.effect SweatDrop.twoDropOptions (fun _ => 0)
        (fun _ => 0)).defs.map Gradient.id) =
      ["shadowGradient_1000", "dropGradient_1000",
       "shadowGradient_1000", "dropGradient_1000"] ∧
    ¬ ((SweatDrop.effect SweatDrop.twoDropOptions (fun _ => 0)
        (fun _ => 0)).defs.map Gradient.id).Nodup := by
  have hids : ((SweatDrop.effect SweatDrop.twoDropOptions (fun _ => 0)
      (fun _ => 0)).defs.map Gradient.id) =
      ["shadowGradient_1000", "dropGradient_1000",
       "shadowGradient_1000", "dropGradient_1000"] := by rfl
  refine ⟨hids, ?_⟩
  rw [hids]
  decide

/-- C8 amended: within one run (either variant) the generated gradient
identifiers are pairwise distinct provided the `2 * drop_count`
`randint(1000, 9999)` draws are pairwise distinct; nothing in the code
enforces this, and sequences with a repeated draw produce duplicate
identifiers. -/
theorem gradient_ids_unique_if_suffixes_distinct (o : SweatDrop.Options)
    (o2 : Teardrop.Options) (fs fs2 : ℕ → ℝ) (ivs ivs2 : ℕ → ℕ)
    (h : ∀ j k, j < 2 * o.drop_count.toNat → k < 2 * o.drop_count.toNat →
      j ≠ k → randintVal 1000 9999 (ivs j) ≠ randintVal 1000 9999 (ivs k))
    (h2 : ∀ j k, j < 2 * o2.drop_count.toNat → k < 2 * o2.drop_count.toNat →
      j ≠ k →
      randintVal 1000 9999 (ivs2 j) ≠ randintVal 1000 9999 (ivs2 k)) :
    ((SweatDrop.effect o fs ivs).defs.map Gradient.id).Nodup ∧
    ((Teardrop.effect o2 fs2 ivs2).defs.map Gradient.id).Nodup := by
  constructor
  · have hids : (SweatDrop.effect o fs ivs).defs.map Gradient.id =
        ((List.range o.drop_count.toNat).map fun i =>
          ["shadowGradient_" ++
             Nat.repr (randintVal 1000 9999 (ivs (2 * i))),
           "dropGradient_" ++
             Nat.repr (randintVal 1000 9999 (ivs (2 * i + 1)))]).flatten := by
      simp [SweatDrop.effect, SweatDrop.create_single_drop,
        SweatDrop.create_shadow, SweatDrop.create_main_drop,
        SweatDrop.create_shadow_gradient, SweatDrop.create_drop_gradient,
        List.map_flatten, List.map_map, Function.comp_def]
    rw [hids]
    exact nodup_gradient_id_list o.drop_count.toNat
      (fun i => randintVal 1000 9999 (ivs (2 * i)))
      (fun i => randintVal 1000 9999 (ivs (2 * i + 1)))
      (fun i j hi hj hij => h (2 * i) (2 * j) (by omega) (by omega) (by omega))
      (fun i j hi hj hij =>
        h (2 * i + 1) (2 * j + 1) (by omega) (by omega) (by omega))
  · have hids : (Teardrop.effect o2 fs2 ivs2).defs.map Gradient.id =
        ((List.range o2.drop_count.toNat).map fun i =>
          ["shadowGradient_" ++
             Nat.repr (randintVal 1000 9999 (ivs2 (2 * i))),
           "dropGradient_" ++
             Nat.repr (randintVal 1000 9999 (ivs2 (2 * i + 1)))]).flatten := by
      simp [Teardrop.effect, Teardrop.create_single_teardrop,
        Teardrop.create_teardrop_shadow, Teardrop.create_teardrop_main,
        Teardrop.create_shadow_gradient, Teardrop.create_drop_gradient,
        List.map_flatten, List.map_map, Function.comp_def]
    rw [hids]
    exact nodup_gradient_id_list o2.drop_count.toNat
      (fun i => randintVal 1000 9999 (ivs2 (2 * i)))
      (fun i => randintVal 1000 9999 (ivs2 (2 * i + 1)))
      (fun i j hi hj hij =>
        h2 (2 * i) (2 * j) (by omega) (by omega) (by omega))
      (fun i j hi hj hij =>
        h2 (2 * i + 1) (2 * j + 1) (by omega) (by omega) (by omega))

/-- C8 witness: with the identity integer stream the draws
`1000, 1001, 1002, 1003` are pairwise distinct and the two-drop run's
gradient identifiers are pairwise distinct. -/
theorem gradient_ids_unique_if_suffixes_distinct_witness :
    ((SweatDrop.effect SweatDrop.twoDropOptions (fun _ => 0)
       (fun k => k)).defs.map Gradient.id).Nodup ∧
    ((Teardrop.effect Teardrop.exampleOptions (fun _ => 0)
       (fun k => k)).defs.map Gradient.id).Nodup := by
  refine gradient_ids_unique_if_suffixes_distinct SweatDrop.twoDropOptions
    Teardrop.exampleOptions (fun _ => 0) (fun _ => 0) (fun k => k)
    (fun k => k) ?_ ?_
  · intro j k hj hk hjk
    have hc : SweatDrop.twoDropOptions.drop_count = 2 := rfl
    rw [hc] at hj hk
    simp only [randintVal]
    omega
  · intro j k hj hk hjk
    have hc : Teardrop.exampleOptions.drop_count = 1 := rfl
    rw [hc] at hj hk
    simp only [randintVal]
    omega
